import Mathlib

/-!
Shallow embedding of src/step.rs: the CustomIndex bounded index type, its
validating constructors, accessors, the Add implementation, the Idx trait
methods, the From conversions, and the Step trait implementation
(steps_between, forward_checked, backward_checked).

Conventions of the embedding:
* A Rust function that can panic is embedded as an Option-returning
  function where the value none stands for a panic.
* The checked stepping functions therefore return Option (Option CustomIndex):
  the outer layer records panic (none) versus normal return (some), and the
  inner layer is the Rust Option (absence versus presence).
* usize is modelled as Nat bounded by USIZE_MAX (a 64-bit platform); an
  unchecked usize addition is modelled with debug overflow checks, so it
  panics (none) on overflow rather than wrapping.
-/

namespace RustStep

/-- Rust: const MAX: u32 = 0xFFFF_FF00 (shave off 256 indices at the end). -/
def MAX : Nat := 0xFFFFFF00

/-- Largest usize value on the modelled 64-bit platform. -/
def USIZE_MAX : Nat := 2 ^ 64 - 1

/-- Rust: struct CustomIndex { private_use_as_methods_instead: u32 }. -/
structure CustomIndex where
  private_use_as_methods_instead : Nat
  deriving DecidableEq, Repr

/-- Rust: const fn from_u32_unchecked(value: u32) -> Self (no validation). -/
def from_u32_unchecked (value : Nat) : CustomIndex :=
  ⟨value⟩

/-- Rust: const fn from_usize(value: usize) -> Self; asserts value ≤ MAX,
panic modelled as none. -/
def from_usize (value : Nat) : Option CustomIndex :=
  if value ≤ MAX then some (from_u32_unchecked value) else none

/-- Rust: const fn from_u32(value: u32) -> Self; asserts value ≤ MAX,
panic modelled as none. -/
def from_u32 (value : Nat) : Option CustomIndex :=
  if value ≤ MAX then some (from_u32_unchecked value) else none

/-- Rust: const fn from_u16(value: u16) -> Self; widens to u32 (identity on
the modelled Nat) and asserts value ≤ MAX, panic modelled as none. -/
def from_u16 (value : Nat) : Option CustomIndex :=
  if value ≤ MAX then some (from_u32_unchecked value) else none

/-- Rust: const fn as_u32(self) -> u32. -/
def as_u32 (i : CustomIndex) : Nat :=
  i.private_use_as_methods_instead

/-- Rust: const fn as_usize(self) -> usize. -/
def as_usize (i : CustomIndex) : Nat :=
  as_u32 i

/-- Rust: const fn index(self) -> usize. -/
def index (i : CustomIndex) : Nat :=
  as_usize i

/-- Rust: usize::checked_add; none when the sum leaves the usize range. -/
def checked_add (a b : Nat) : Option Nat :=
  if a + b ≤ USIZE_MAX then some (a + b) else none

/-- Rust: usize::checked_sub; none when the difference would go below zero. -/
def checked_sub (a b : Nat) : Option Nat :=
  if b ≤ a then some (a - b) else none

/-- Rust: impl Add of usize for CustomIndex:
fn add(self, other) = Self::from_usize(self.index() + other).  The plain
usize addition is modelled with debug overflow checks (panic = none on
overflow), then the validating constructor runs. -/
def add (i : CustomIndex) (other : Nat) : Option CustomIndex :=
  match checked_add (index i) other with
  | none => none
  | some s => from_usize s

/-- Rust: Idx::new for CustomIndex = Self::from_usize(idx). -/
def Idx_new (idx : Nat) : Option CustomIndex :=
  from_usize idx

/-- Rust: Idx::plus default body: Self::new(self.index() + amount); the
usize addition panics (none) on overflow, then new validates. -/
def plus (i : CustomIndex) (amount : Nat) : Option CustomIndex :=
  match checked_add (index i) amount with
  | none => none
  | some s => Idx_new s

/-- Rust: Idx::increment_by default body: *self = self.plus(amount); the
resulting state (or panic) of the updated index. -/
def increment_by (i : CustomIndex) (amount : Nat) : Option CustomIndex :=
  plus i amount

/-- Rust: impl From of usize for CustomIndex = Self::from_usize(value). -/
def from_impl_usize (value : Nat) : Option CustomIndex :=
  from_usize value

/-- Rust: impl From of u32 for CustomIndex = Self::from_u32(value). -/
def from_impl_u32 (value : Nat) : Option CustomIndex :=
  from_u32 value

/-- Rust: Step for usize: steps_between(a, b) = if a ≤ b then
(b - a, Some(b - a)) else (0, None). -/
def steps_between_usize (a b : Nat) : Nat × Option Nat :=
  if a ≤ b then (b - a, some (b - a)) else (0, none)

/-- Rust: Step::steps_between for CustomIndex delegates to usize. -/
def steps_between (start finish : CustomIndex) : Nat × Option Nat :=
  steps_between_usize (index start) (index finish)

/-- Rust: Step::forward_checked for CustomIndex:
Self::index(start).checked_add(u).map(Self::from_usize).  The mapped
from_usize can panic, so the outer Option records panic (none); the inner
Option is the returned Rust Option. -/
def forward_checked (start : CustomIndex) (u : Nat) : Option (Option CustomIndex) :=
  match checked_add (index start) u with
  | none => some none
  | some s => (from_usize s).map some

/-- Rust: Step::backward_checked for CustomIndex:
Self::index(start).checked_sub(u).map(Self::from_usize). -/
def backward_checked (start : CustomIndex) (u : Nat) : Option (Option CustomIndex) :=
  match checked_sub (index start) u with
  | none => some none
  | some s => (from_usize s).map some

/-- Rust derived PartialEq on CustomIndex: structural over the stored u32. -/
def ciBEq (a b : CustomIndex) : Bool :=
  as_u32 a == as_u32 b

/-- Rust derived Ord on CustomIndex: strict order of the stored u32. -/
def ciLt (a b : CustomIndex) : Bool :=
  decide (as_u32 a < as_u32 b)

/-- C2: for every integer v with 0 ≤ v ≤ MAX, from_u32 v succeeds and the
conversion back out with as_u32 is lossless (round trip). -/
theorem from_u32_roundtrip (v : Nat) (h : v ≤ MAX) :
    ∃ i : CustomIndex, from_u32 v = some i ∧ as_u32 i = v := by
  exact ⟨from_u32_unchecked v, by simp [from_u32, h], rfl⟩

/-- C2 witness: the round trip at the concrete value 42. -/
theorem from_u32_roundtrip_witness :
    ∃ i : CustomIndex, from_u32 42 = some i ∧ as_u32 i = 42 :=
  from_u32_roundtrip 42 (by decide)

/-- C9: from_u16 succeeds on every 16-bit input (v < 65536 implies v ≤ MAX),
so the failure branch of its assertion is unreachable. -/
theorem from_u16_total (v : Nat) (h : v < 65536) :
    (from_u16 v).isSome = true := by
  have hv : v ≤ MAX := by
    unfold MAX; omega
  simp [from_u16, hv]

/-- C9 witness: from_u16 succeeds at the largest 16-bit value 65535. -/
theorem from_u16_total_witness :
    (from_u16 65535).isSome = true :=
  from_u16_total 65535 (by decide)

/-- C10: for every start satisfying the range invariant, backward_checked
never panics (the validating assertion inside from_usize is unreachable,
since a successful subtraction yields a result no greater than start). -/
theorem backward_checked_no_panic (start : CustomIndex) (u : Nat)
    (h : index start ≤ MAX) :
    backward_checked start u ≠ none := by
  by_cases hu : u ≤ index start
  · have hle : index start - u ≤ MAX := le_trans (Nat.sub_le _ _) h
    simp [backward_checked, checked_sub, from_usize, hu, hle]
  · simp [backward_checked, checked_sub, hu]

/-- C10 witness: backward_checked does not panic at start = 5, offset = 7. -/
theorem backward_checked_no_panic_witness :
    backward_checked (from_u32_unchecked 5) 7 ≠ none :=
  backward_checked_no_panic (from_u32_unchecked 5) 7 (by decide)

/-- C5: for every start satisfying the range invariant, backward_checked
returns the index start.index() - offset when offset ≤ start.index(), and
returns absence when retreating would underflow below zero. -/
theorem backward_checked_spec (start : CustomIndex) (u : Nat)
    (hs : index start ≤ MAX) :
    (u ≤ index start →
      backward_checked start u =
        some (some (from_u32_unchecked (index start - u)))) ∧
    (index start < u → backward_checked start u = some none) := by
  constructor
  · intro hu
    have hle : index start - u ≤ MAX := le_trans (Nat.sub_le _ _) hs
    simp [backward_checked, checked_sub, from_usize, hu, hle]
  · intro hu
    simp [backward_checked, checked_sub, Nat.not_le.mpr hu]

/-- C5 witness: backward_checked (Index 100) 1 is present (Index 99), and
backward_checked (Index 1) 2 is absent. -/
theorem backward_checked_spec_witness :
    backward_checked (from_u32_unchecked 100) 1 =
      some (some (from_u32_unchecked 99)) ∧
    backward_checked (from_u32_unchecked 1) 2 = some none :=
  ⟨(backward_checked_spec (from_u32_unchecked 100) 1 (by decide)).1 (by decide),
   (backward_checked_spec (from_u32_unchecked 1) 2 (by decide)).2 (by decide)⟩

/-- C6: for start ≤ end, steps_between returns the exact forward-step count
end.index() - start.index() as both lower bound and present exact bound. -/
theorem steps_between_exact (s e : CustomIndex) (h : index s ≤ index e) :
    steps_between s e = (index e - index s, some (index e - index s)) := by
  simp [steps_between, steps_between_usize, h]

/-- C6 witness: steps_between (Index 5) (Index 10) = (5, some 5). -/
theorem steps_between_exact_witness :
    steps_between (from_u32_unchecked 5) (from_u32_unchecked 10) =
      (5, some 5) :=
  steps_between_exact (from_u32_unchecked 5) (from_u32_unchecked 10) (by decide)

/-- C7: plus and increment_by agree: applying increment_by n to a copy of i
yields exactly i.plus(n), including agreement on when they fail. -/
theorem increment_by_eq_plus (i : CustomIndex) (n : Nat) :
    increment_by i n = plus i n :=
  rfl

/-- C4: add i n returns exactly the result of from_usize (i.index() + n),
and fails fatally exactly when the sum exceeds MAX (a sum that overflows
the offset domain also exceeds MAX). -/
theorem add_eq_from_usize (i : CustomIndex) (n : Nat) :
    add i n = from_usize (index i + n) ∧
    (add i n = none ↔ MAX < index i + n) := by
  by_cases h : index i + n ≤ USIZE_MAX
  · refine ⟨by simp [add, checked_add, h], ?_⟩
    by_cases hm : index i + n ≤ MAX
    · simp [add, checked_add, from_usize, h, hm]
      try omega
    · simp [add, checked_add, from_usize, h, hm]
      try omega
  · have hmax : MAX < index i + n := by
      unfold MAX
      unfold USIZE_MAX at h
      omega
    refine ⟨?_, by simp [add, checked_add, h, hmax]⟩
    simp [add, checked_add, from_usize, h, Nat.not_le.mpr hmax]

/-- C3: every validating constructor (from_usize, from_u32 and the From
conversions) fails fatally on v > MAX, no validating constructor ever
produces a value in the reserved tail above MAX, and from_u32 MAX
succeeds. -/
theorem validating_constructors_bounded :
    (∀ v : Nat, MAX < v →
      from_usize v = none ∧ from_u32 v = none ∧
      from_impl_usize v = none ∧ from_impl_u32 v = none) ∧
    (∀ v : Nat, ∀ i : CustomIndex, from_usize v = some i → as_u32 i ≤ MAX) ∧
    (∀ v : Nat, ∀ i : CustomIndex, from_u32 v = some i → as_u32 i ≤ MAX) ∧
    (from_u32 MAX).isSome = true := by
  refine ⟨?_, ?_, ?_, by decide⟩
  · intro v hv
    have h : ¬ v ≤ MAX := Nat.not_le.mpr hv
    simp [from_usize, from_u32, from_impl_usize, from_impl_u32, h]
  · intro v i hi
    by_cases h : v ≤ MAX
    · simp [from_usize, h] at hi
      subst hi
      exact h
    · simp [from_usize, h] at hi
  · intro v i hi
    by_cases h : v ≤ MAX
    · simp [from_u32, h] at hi
      subst hi
      exact h
    · simp [from_u32, h] at hi

/-- C3 witness: from_usize fails at the first reserved-tail value
0xFFFF_FF01, and a successful from_u32 at 7 stays below MAX. -/
theorem validating_constructors_bounded_witness :
    from_usize 0xFFFFFF01 = none ∧
    as_u32 (from_u32_unchecked 7) ≤ MAX :=
  ⟨((validating_constructors_bounded.1 0xFFFFFF01 (by decide)).1),
   validating_constructors_bounded.2.2.1 7 (from_u32_unchecked 7) (by decide)⟩

/-- C8: equality on index values is structural over the stored integer
(reflexive, symmetric, transitive), the derived strict order is a total
order (transitive, trichotomous), and it is consistent with the underlying
integer ordering: index a < index b implies a < b. -/
theorem customIndex_eq_and_order :
    (∀ a b : CustomIndex, ciBEq a b = true ↔ a = b) ∧
    (∀ a : CustomIndex, ciBEq a a = true) ∧
    (∀ a b : CustomIndex, ciBEq a b = true → ciBEq b a = true) ∧
    (∀ a b c : CustomIndex,
      ciBEq a b = true → ciBEq b c = true → ciBEq a c = true) ∧
    (∀ a b c : CustomIndex,
      ciLt a b = true → ciLt b c = true → ciLt a c = true) ∧
    (∀ a b : CustomIndex, ciLt a b = true ∨ a = b ∨ ciLt b a = true) ∧
    (∀ a b : CustomIndex, index a < index b → ciLt a b = true) := by
  refine ⟨?_, ?_, ?_, ?_, ?_, ?_, ?_⟩
  · rintro ⟨x⟩ ⟨y⟩
    simp [ciBEq, as_u32]
  · rintro ⟨x⟩
    simp [ciBEq]
  · rintro ⟨x⟩ ⟨y⟩ h
    simp [ciBEq, as_u32] at *
    omega
  · rintro ⟨x⟩ ⟨y⟩ ⟨z⟩ h1 h2
    simp [ciBEq, as_u32] at *
    omega
  · rintro ⟨x⟩ ⟨y⟩ ⟨z⟩ h1 h2
    simp [ciLt, as_u32] at *
    omega
  · rintro ⟨x⟩ ⟨y⟩
    simp [ciLt, as_u32]
    omega
  · rintro ⟨x⟩ ⟨y⟩ h
    simp [index, as_usize, as_u32] at h
    simp [ciLt, as_u32]
    omega

/-- C8 witness: the order agrees with the integers at 3 and 5. -/
theorem customIndex_eq_and_order_witness :
    ciLt (from_u32_unchecked 3) (from_u32_unchecked 5) = true :=
  customIndex_eq_and_order.2.2.2.2.2.2
    (from_u32_unchecked 3) (from_u32_unchecked 5) (by decide)

/-- C1 counterexample: at the legal start value MAX with offset 1 the sum
exceeds MAX without overflowing the offset domain; the claim demands
absence (some none), but forward_checked panics inside from_usize (none). -/
theorem forward_checked_panic_counterexample :
    forward_checked (from_u32_unchecked MAX) 1 = none ∧
    forward_checked (from_u32_unchecked MAX) 1 ≠ some none := by
  constructor <;> decide

/-- C1 amended: for a start satisfying the range invariant, forward_checked
returns the index start.index() + offset when the sum stays within MAX,
returns absence exactly when the addition overflows the offset domain,
panics when the sum is representable in the offset domain but exceeds MAX,
and never returns a present value above MAX. -/
theorem forward_checked_cases (start : CustomIndex) (u : Nat)
    (_hs : index start ≤ MAX) :
    (index start + u ≤ MAX →
      forward_checked start u =
        some (some (from_u32_unchecked (index start + u)))) ∧
    (USIZE_MAX < index start + u → forward_checked start u = some none) ∧
    (MAX < index start + u → index start + u ≤ USIZE_MAX →
      forward_checked start u = none) ∧
    (∀ r : CustomIndex,
      forward_checked start u = some (some r) → as_u32 r ≤ MAX) := by
  refine ⟨?_, ?_, ?_, ?_⟩
  · intro h
    have h1 : index start + u ≤ USIZE_MAX := by
      unfold MAX at h
      unfold USIZE_MAX
      omega
    simp [forward_checked, checked_add, from_usize, h1, h]
  · intro h
    simp [forward_checked, checked_add, Nat.not_le.mpr h]
  · intro h1 h2
    simp [forward_checked, checked_add, from_usize, h2, Nat.not_le.mpr h1]
  · intro r hr
    by_cases h1 : index start + u ≤ USIZE_MAX
    · by_cases h2 : index start + u ≤ MAX
      · simp [forward_checked, checked_add, from_usize, h1, h2] at hr
        subst hr
        exact h2
      · simp [forward_checked, checked_add, from_usize, h1, h2] at hr
    · simp [forward_checked, checked_add, h1] at hr

/-- C1 witness: forward_checked (Index 0) 1 is present (Index 1). -/
theorem forward_checked_cases_witness :
    forward_checked (from_u32_unchecked 0) 1 =
      some (some (from_u32_unchecked 1)) :=
  (forward_checked_cases (from_u32_unchecked 0) 1 (by decide)).1 (by decide)

end RustStep
